import Mathlib

/-!
Shallow embedding of `src/server/services/statutory-reports.js` from the
HR-and-Payroll repository, together with proofs settling the frozen claims
about the statutory-report generators (PF ECR, ESI return, TDS summary).

Modelling conventions:
* The database is modelled per tenant: every SQL query in the source filters
  by `tenant_id`, so a `DB` value holds exactly the rows of one tenant and
  `tenantId` parameters disappear.
* SQL `NULL` text columns are modelled as `""`: JavaScript `x || y` treats
  both `null` and `""` as falsy, so this identification is exact for every
  `||` fallback chain in the source (`jsOr`).
* JavaScript `Math.round x` is `⌊x + 1/2⌋` (round half toward +∞).  The
  source only rounds quotients `n/100` and products with the decimal
  literals `0.8333` and `0.0005`; both are modelled exactly over the
  rationals as `roundHalfUp num den = ⌊num/den + 1/2⌋` computed on integers
  (`0.8333 = 8333/10000`, `0.0005 = 5/10000`).
* Each generator returns, besides its `Except` result, the list of database
  queries it executed, in order, so that claims about *which* queries run
  before a failure are statable.
-/

deriving instance DecidableEq for Except

namespace StatutoryReports

/-- JavaScript `Math.round (num / den)` for integers `num` and `den > 0`:
round half toward positive infinity, i.e. `⌊num/den + 1/2⌋`, computed as a
floor division.  Used for `Math.round(cents / 100)` and for
`Math.round(x * 0.8333)` (as `roundHalfUp (x * 8333) 10000`) etc. -/
def roundHalfUp (num den : Int) : Int :=
  Int.fdiv (2 * num + den) (2 * den)

/-- `Math.round(cents / 100)` — conversion of minor units to whole currency
units, as performed at every serialization point of the source. -/
def centsToRupees (c : Int) : Int := roundHalfUp c 100

/-- JavaScript `a || b` on strings, where the only falsy string is `""`
(which also stands for SQL `NULL` in this model). -/
def jsOr (a b : String) : String := if a = "" then b else a

/-- JavaScript `Array.prototype.join(sep)`. -/
def joinSep (sep : String) : List String → String
  | [] => ""
  | [a] => a
  | a :: rest => a ++ sep ++ joinSep sep rest

/-- ASCII whitespace, as stripped by `String.prototype.trim` (the names
occurring in the claims are ASCII; `trim` also strips further Unicode
space characters, which this model does not need). -/
def isWs (c : Char) : Bool := c == ' ' || c == '\t' || c == '\n' || c == '\r'

/-- `str.trim()`. -/
def jsTrim (s : String) : String :=
  String.mk (((s.data.dropWhile isWs).reverse.dropWhile isWs).reverse)

/-- `str.toUpperCase()` (ASCII; the uppercase mapping of the claims'
inputs). -/
def jsToUpper (s : String) : String :=
  String.mk (s.data.map Char.toUpper)

/-- `String(month).padStart(2, '0')` for a natural number. -/
def pad2 (n : Nat) : String :=
  let s := Nat.repr n
  if s.length < 2 then "0" ++ s else s

/-- Code-point order on character lists (model of the text ordering used by
`ORDER BY employee_id`; SQL collation for the tie-free claims here is
irrelevant, only that some fixed total preorder is applied). -/
def charsLe : List Char → List Char → Bool
  | [], _ => true
  | _ :: _, [] => false
  | a :: as, b :: bs =>
    if a.toNat < b.toNat then true
    else if b.toNat < a.toNat then false
    else charsLe as bs

/-- Code-point order on strings. -/
def strLe (s t : String) : Bool := charsLe s.data t.data

/-- Insert into a list sorted by the boolean preorder `le`. -/
def insertSorted (le : α → α → Bool) (a : α) : List α → List α
  | [] => [a]
  | b :: bs => if le a b then a :: b :: bs else b :: insertSorted le a bs

/-- Insertion sort by a boolean preorder — the model of SQL `ORDER BY`
(a stable sort; SQL leaves tie order unspecified). -/
def sortWith (le : α → α → Bool) : List α → List α
  | [] => []
  | a :: as => insertSorted le a (sortWith le as)

/-! ## Data model (one tenant's rows) -/

/-- A calendar date, as stored in `pay_date` / `pay_period_*` columns. -/
structure YMD where
  year : Nat
  month : Nat
  day : Nat
deriving DecidableEq, Repr, Inhabited

/-- Key realising date order for calendar dates (day ≤ 31, month ≤ 12). -/
def ymdKey (d : YMD) : Nat := d.year * 10000 + d.month * 100 + d.day

/-- A row of `payroll_runs` (for the tenant under consideration). -/
structure PayrollRun where
  id : Nat
  payPeriodStart : YMD
  payPeriodEnd : YMD
  payDate : YMD
  status : String
deriving DecidableEq, Repr, Inhabited

/-- The tenant's row of `organizations`
(columns used by the three generators). -/
structure Org where
  name : String
  pf_code : String
  company_pan : String
  company_tan : String
  esi_code : String
deriving DecidableEq, Repr

/-- A row of `payroll_run_employees` joined with `employees` and `profiles`,
as selected by the generators.  `metaPfCents` / `metaTdsCents` model the
`metadata->>'pf_cents'` / `metadata->>'tds_cents'` JSON lookups (`none` when
the key is absent). -/
structure PreRow where
  payrollRunId : Nat
  status : String
  employeeId : String
  uanNumber : String
  esiNumber : String
  panNumber : String
  firstName : Option String
  lastName : Option String
  grossPayCents : Int
  metaPfCents : Option Int
  metaTdsCents : Option Int
deriving DecidableEq, Repr

/-- The tenant's visible database state (all queries are read-only). -/
structure DB where
  runs : List PayrollRun
  org : Option Org
  preRows : List PreRow
deriving DecidableEq, Repr

/-- The database queries a generator can execute, in source order. -/
inductive QueryTag where
  | completedRunQ
  | anyRunsQ
  | orgQ
  | employeesQ
deriving DecidableEq, Repr

/-- `COALESCE(p.first_name || ' ' || p.last_name, p.first_name, p.last_name, '')`:
SQL `||` is null-propagating, so the concatenation applies only when both
parts are present. -/
def employeeName (r : PreRow) : String :=
  match r.firstName, r.lastName with
  | some f, some l => f ++ " " ++ l
  | some f, none => f
  | none, some l => l
  | none, none => ""

/-- `COALESCE((pre.metadata->>'pf_cents')::bigint, 0)`. -/
def pfContributionCents (r : PreRow) : Int := r.metaPfCents.getD 0

/-- `COALESCE((pre.metadata->>'tds_cents')::bigint, 0)`. -/
def tdsCents (r : PreRow) : Int := r.metaTdsCents.getD 0

/-! ## PayrollRunLookup (`getPayrollRunForMonth`) -/

/-- The first query of `getPayrollRunForMonth`: completed runs whose
`pay_date` falls in the requested month/year, most recent first, `LIMIT 1`. -/
def completedRunsForMonth (db : DB) (month year : Nat) : List PayrollRun :=
  (sortWith (fun a b => decide (ymdKey b.payDate ≤ ymdKey a.payDate))
    (db.runs.filter (fun r =>
      r.payDate.month == month && r.payDate.year == year &&
        r.status == "completed"))).take 1

/-- One row of the diagnostic `GROUP BY month, year, status` query
(the selected `COUNT(*)` is never used by the source and is omitted). -/
structure RunGroup where
  month : Nat
  year : Nat
  status : String
deriving DecidableEq, Repr

/-- The diagnostic "all runs for this tenant" query: distinct
`(month, year, status)` groups of `pay_date`, `ORDER BY year DESC, month
DESC`, `LIMIT 10`.  (SQL leaves the order of groups that tie on year and
month unspecified; the model fixes the stable order of a stable sort over
first occurrences.) -/
def runGroups (db : DB) : List RunGroup :=
  ((sortWith (fun g h =>
      decide (h.year < g.year ∨ (h.year = g.year ∧ h.month ≤ g.month)))
    (db.runs.map (fun r =>
      RunGroup.mk r.payDate.month r.payDate.year r.status)).eraseDups)).take 10

/-- The diagnostic message built by `getPayrollRunForMonth` when no
completed run matches the requested month/year. -/
def noRunDiagnostic (db : DB) (month year : Nat) : String :=
  let base := "No completed payroll run found for " ++ Nat.repr month ++ "/"
    ++ Nat.repr year ++ "."
  let groups := runGroups db
  if groups.isEmpty then
    base ++ " No payroll runs found for this organization. Please create and process a payroll run first."
  else
    let availableRuns := joinSep ", "
      ((groups.filter (fun g => g.status == "completed")).map
        (fun g => Nat.repr g.month ++ "/" ++ Nat.repr g.year))
    if availableRuns ≠ "" then
      base ++ " Available completed payroll runs: " ++ availableRuns ++ "."
    else
      base ++ " Available payroll runs: "
        ++ joinSep ", " (groups.map (fun g =>
            Nat.repr g.month ++ "/" ++ Nat.repr g.year ++ " (" ++ g.status ++ ")"))
        ++ ". Please complete a payroll run first."

/-- `getPayrollRunForMonth(tenantId, month, year)`: resolve the most recent
completed run of the month, or throw the diagnostic error.  The first
component records the queries executed, in order. -/
def getPayrollRunForMonth (db : DB) (month year : Nat) :
    List QueryTag × Except String PayrollRun :=
  match completedRunsForMonth db month year with
  | run :: _ => ([QueryTag.completedRunQ], Except.ok run)
  | [] =>
    ([QueryTag.completedRunQ, QueryTag.anyRunsQ],
      Except.error (noRunDiagnostic db month year))

/-! ## PFReportBuilder (`generatePFECR`) -/

/-- The PF employee query: `processed` rows of the run, ordered by
`employee_id`. -/
def pfEmployeeRows (db : DB) (runId : Nat) : List PreRow :=
  sortWith (fun a b => strLe a.employeeId b.employeeId)
    (db.preRows.filter (fun r =>
      r.payrollRunId == runId && r.status == "processed"))

/-- One PF ECR employee record:
`UAN|Name|Gross|EPF wages|EPS wages|EPF contribution|EPS contribution|EDLI contribution`.
Note that the source converts the PF contribution to whole currency units
first (`epfContribution`) and only then applies the EPS/EDLI rates. -/
def pfEmployeeRecord (r : PreRow) : String :=
  let epfContribution := centsToRupees (pfContributionCents r)
  joinSep "|"
    [ jsOr r.uanNumber ""
    , jsToUpper (jsTrim (jsOr (employeeName r) ""))
    , toString (centsToRupees r.grossPayCents)
    , toString (centsToRupees (min r.grossPayCents 1500000))
    , toString (centsToRupees (min r.grossPayCents 1500000))
    , toString epfContribution
    , toString (roundHalfUp (epfContribution * 8333) 10000)
    , toString (roundHalfUp (epfContribution * 5) 10000) ]

/-- The PF ECR header:
`Establishment Code|Month|Year|Total Employees|Total EPF|Total EPS|Total EDLI`,
where the EPS/EDLI totals are derived from the minor-unit EPF total and
every monetary total is then converted to whole currency units. -/
def pfHeader (org : Org) (month year : Nat) (rows : List PreRow) : String :=
  let totalEPF : Int := (rows.map pfContributionCents).sum
  let totalEPS := roundHalfUp (totalEPF * 8333) 10000
  let totalEDLI := roundHalfUp (totalEPF * 5) 10000
  joinSep "|"
    [ jsOr org.pf_code ""
    , pad2 month
    , Nat.repr year
    , Nat.repr rows.length
    , toString (centsToRupees totalEPF)
    , toString (centsToRupees totalEPS)
    , toString (centsToRupees totalEDLI) ]

/-- `generatePFECR(tenantId, month, year)`. -/
def generatePFECR (db : DB) (month year : Nat) :
    List QueryTag × Except String String :=
  match getPayrollRunForMonth db month year with
  | (qs, Except.error e) => (qs, Except.error e)
  | (qs, Except.ok payrollRun) =>
    match db.org with
    | none => (qs ++ [QueryTag.orgQ], Except.error "Organization not found")
    | some org =>
      if org.pf_code = "" then
        (qs ++ [QueryTag.orgQ],
          Except.error "PF Code not configured for organization")
      else
        let rows := pfEmployeeRows db payrollRun.id
        if rows.isEmpty then
          (qs ++ [QueryTag.orgQ, QueryTag.employeesQ],
            Except.error "No employees found in payroll run")
        else
          (qs ++ [QueryTag.orgQ, QueryTag.employeesQ],
            Except.ok (joinSep "\n"
              (pfHeader org month year rows :: rows.map pfEmployeeRecord)))

/-! ## ESIReportBuilder (`generateESIReturn`) -/

/-- Leap-year rule of the proleptic Gregorian calendar, as implemented by
the JavaScript `Date` object. -/
def isLeapYear (y : Nat) : Bool :=
  y % 4 == 0 && (y % 100 != 0 || y % 400 == 0)

/-- Model of `new Date(year, month, 0).getDate()` for `1 ≤ month ≤ 12`:
the number of days of calendar month `month` of `year` (JavaScript months
are zero-based, so day 0 of month index `month` is the last day of calendar
month `month`). -/
def daysInMonth (year month : Nat) : Nat :=
  if month = 2 then (if isLeapYear year then 29 else 28)
  else if month = 4 ∨ month = 6 ∨ month = 9 ∨ month = 11 then 30
  else 31

/-- The ESI employee query: `processed` rows of the run with
`gross_pay_cents <= 2100000` (the 21000-rupee ESI threshold in cents),
ordered by `employee_id`. -/
def esiEmployeeRows (db : DB) (runId : Nat) : List PreRow :=
  sortWith (fun a b => strLe a.employeeId b.employeeId)
    (db.preRows.filter (fun r =>
      r.payrollRunId == runId && r.status == "processed" &&
        decide (r.grossPayCents ≤ 2100000)))

/-- `escapeCSV`: wrap the field in double quotes, doubling internal quotes,
exactly when it contains a comma, a double quote or a newline. -/
def hasSpecial (s : String) : Bool :=
  s.data.any (fun c => c == ',' || c == '"' || c == '\n')

/-- `str.replace(/"/g, '""')` at the character-list level. -/
def doubleQuotes : List Char → List Char
  | [] => []
  | c :: cs =>
    if c = '"' then '"' :: '"' :: doubleQuotes cs else c :: doubleQuotes cs

/-- The CSV field escaper defined inside `generateESIReturn`. -/
def escapeCSV (s : String) : String :=
  if hasSpecial s then String.mk ('"' :: (doubleQuotes s.data ++ ['"'])) else s

/-- One ESI CSV record: `IP Number, IP Name, Days Worked, Wages`.
`days` is the `days_worked` column, which the query sets to the passed-in
calendar-day count (`$3`); the `|| daysInMonth` fallback of the source is
the identity because that count is at least 28, hence truthy. -/
def esiRecord (days : Nat) (r : PreRow) : String :=
  joinSep ","
    [ escapeCSV (jsOr r.esiNumber (jsOr r.employeeId ""))
    , escapeCSV (jsTrim (jsOr (employeeName r) ""))
    , escapeCSV (Nat.repr days)
    , escapeCSV (toString (centsToRupees r.grossPayCents)) ]

/-- `generateESIReturn(tenantId, month, year)`. -/
def generateESIReturn (db : DB) (month year : Nat) :
    List QueryTag × Except String String :=
  match getPayrollRunForMonth db month year with
  | (qs, Except.error e) => (qs, Except.error e)
  | (qs, Except.ok payrollRun) =>
    match db.org with
    | none => (qs ++ [QueryTag.orgQ], Except.error "Organization not found")
    | some _org =>
      let d := daysInMonth year month
      let rows := esiEmployeeRows db payrollRun.id
      if rows.isEmpty then
        (qs ++ [QueryTag.orgQ, QueryTag.employeesQ],
          Except.error "No employees eligible for ESI in this payroll run")
      else
        (qs ++ [QueryTag.orgQ, QueryTag.employeesQ],
          Except.ok (joinSep "\n"
            ("IP Number,IP Name,Days Worked,Wages" :: rows.map (esiRecord d))))

/-! ## TDSReportBuilder (`generateTDSSummary`) -/

/-- One entry of the `employees` lists of the TDS summary. -/
structure TDSEmployeeRecord where
  employee_id : String
  pan : String
  name : String
  gross_pay : Int
  tds_deducted : Int
  sectionCode : String -- the JSON key `section` (a Lean keyword)
deriving DecidableEq, Repr

/-- The `by_section['192B']` bucket of the TDS summary. -/
structure TDSSection where
  sectionCode : String -- the JSON key `section` (a Lean keyword)
  description : String
  total_amount : Int
  employee_count : Nat
  employees : List TDSEmployeeRecord
deriving DecidableEq, Repr

/-- The `organization` block of the TDS summary. -/
structure TDSOrgBlock where
  name : String
  pan : String
  tan : String
deriving DecidableEq, Repr

/-- The `period` block of the TDS summary. -/
structure TDSPeriod where
  month : Nat
  year : Nat
  pay_date : YMD
deriving DecidableEq, Repr

/-- The structured summary returned by `generateTDSSummary`; `by_section`
holds the single hard-coded key `'192B'`. -/
structure TDSSummary where
  organization : TDSOrgBlock
  period : TDSPeriod
  total_tds : Int
  total_employees : Nat
  bySection192B : TDSSection
  employees : List TDSEmployeeRecord
deriving DecidableEq, Repr

/-- The TDS employee query: `processed` rows of the run whose
`metadata->>'tds_cents'` is positive (absent defaulting to 0), ordered by
`employee_id`. -/
def tdsEmployeeRows (db : DB) (runId : Nat) : List PreRow :=
  sortWith (fun a b => strLe a.employeeId b.employeeId)
    (db.preRows.filter (fun r =>
      r.payrollRunId == runId && r.status == "processed" &&
        decide (0 < tdsCents r)))

/-- The employee record pushed for each TDS row. -/
def tdsEmployeeRecord (r : PreRow) : TDSEmployeeRecord :=
  { employee_id := r.employeeId
  , pan := jsOr r.panNumber ""
  , name := jsTrim (jsOr (employeeName r) "")
  , gross_pay := centsToRupees r.grossPayCents
  , tds_deducted := centsToRupees (tdsCents r)
  , sectionCode := "192B" }

/-- The summary value before the `forEach` loop runs
(`total_employees` is already the row count at this point). -/
def tdsInit (org : Org) (month year : Nat) (payrollRun : PayrollRun)
    (rows : List PreRow) : TDSSummary :=
  { organization :=
      { name := jsOr org.name ""
      , pan := jsOr org.company_pan ""
      , tan := jsOr org.company_tan "" }
  , period := { month := month, year := year, pay_date := payrollRun.payDate }
  , total_tds := 0
  , total_employees := rows.length
  , bySection192B :=
      { sectionCode := "192B"
      , description := "Tax Deducted at Source on Salary"
      , total_amount := 0
      , employee_count := 0
      , employees := [] }
  , employees := [] }

/-- One iteration of the `forEach` accumulation loop of
`generateTDSSummary`. -/
def tdsStep (s : TDSSummary) (r : PreRow) : TDSSummary :=
  let tdsAmount := centsToRupees (tdsCents r)
  let er := tdsEmployeeRecord r
  { s with
    total_tds := s.total_tds + tdsAmount
  , employees := s.employees ++ [er]
  , bySection192B :=
      { s.bySection192B with
        total_amount := s.bySection192B.total_amount + tdsAmount
      , employee_count := s.bySection192B.employee_count + 1
      , employees := s.bySection192B.employees ++ [er] } }

/-- `generateTDSSummary(tenantId, month, year)`.  Note: no empty-result
check — zero qualifying rows yield the zero summary, not an error. -/
def generateTDSSummary (db : DB) (month year : Nat) :
    List QueryTag × Except String TDSSummary :=
  match getPayrollRunForMonth db month year with
  | (qs, Except.error e) => (qs, Except.error e)
  | (qs, Except.ok payrollRun) =>
    match db.org with
    | none => (qs ++ [QueryTag.orgQ], Except.error "Organization not found")
    | some org =>
      let rows := tdsEmployeeRows db payrollRun.id
      (qs ++ [QueryTag.orgQ, QueryTag.employeesQ],
        Except.ok (rows.foldl tdsStep (tdsInit org month year payrollRun rows)))

/-! ## Further definitions used by the claims -/

/-- RFC4180-style unescaping of one CSV field, the inverse direction of the
round-trip stated by the spec (the source only escapes; this definition is
modelled from the spec's words): a field wrapped in double quotes is
stripped of them and internal doubled quotes are collapsed; any other field
is returned unchanged.  `undouble` collapses `""` pairs. -/
def undouble : List Char → List Char
  | [] => []
  | [c] => [c]
  | c :: d :: cs =>
    if c = '"' ∧ d = '"' then '"' :: undouble cs
    else c :: undouble (d :: cs)

/-- RFC4180-style unescaping of one CSV field (see `undouble`). -/
def unescapeCSV (s : String) : String :=
  if 2 ≤ s.data.length ∧ s.data.head? = some '"' ∧ s.data.getLast? = some '"'
  then String.mk (undouble ((s.data.drop 1).dropLast))
  else s

/-- The per-employee EPS output value as claim C1 states it: EPS derived
from the PF contribution in minor units, `round(pf_cents × 0.8333)`, with
division by 100 and rounding to whole currency units deferred to final
serialization.  (A spec-side definition, for comparison with the source's
`pfEmployeeRecord`.) -/
def specPerEmployeeEPS (pfCents : Int) : Int :=
  centsToRupees (roundHalfUp (pfCents * 8333) 10000)

/-- The per-employee EDLI output value as claim C1 states it
(`round(pf_cents × 0.0005)` in minor units, converted at serialization). -/
def specPerEmployeeEDLI (pfCents : Int) : Int :=
  centsToRupees (roundHalfUp (pfCents * 5) 10000)

/-- The `InvalidConfig` error class of spec §7: organization missing, or a
required statutory code absent.  (Modelled from the spec: the source throws
plain `Error`s; these are its two organization-configuration messages.) -/
def isInvalidConfigError (msg : String) : Prop :=
  msg = "Organization not found" ∨
    msg = "PF Code not configured for organization"

/-! ## Concrete fixtures for witnesses and counterexamples -/

/-- The completed January-2025 payroll run used by the fixtures. -/
def exRun : PayrollRun :=
  { id := 1, payPeriodStart := ⟨2025, 1, 1⟩, payPeriodEnd := ⟨2025, 1, 31⟩
  , payDate := ⟨2025, 1, 31⟩, status := "completed" }

/-- A fully configured organization. -/
def exOrg : Org :=
  { name := "Acme", pf_code := "PF001", company_pan := "AAAPA1111A"
  , company_tan := "DEL12345A", esi_code := "ESICODE1" }

/-- The employee of the spec's PF example: gross 2,000,000 cents,
PF contribution 240,000 cents. -/
def exEmployee : PreRow :=
  { payrollRunId := 1, status := "processed", employeeId := "E1"
  , uanNumber := "U001", esiNumber := "", panNumber := "BBBPB2222B"
  , firstName := some "John", lastName := some "Doe"
  , grossPayCents := 2000000, metaPfCents := some 240000
  , metaTdsCents := none }

/-- The database of the spec's PF example. -/
def exampleDb : DB :=
  { runs := [exRun], org := some exOrg, preRows := [exEmployee] }

/-- An employee with a 150-cent PF contribution — the input separating the
source's derive-after-conversion from the claimed derive-in-cents pipeline. -/
def row150 : PreRow :=
  { payrollRunId := 1, status := "processed", employeeId := "E1"
  , uanNumber := "U1", esiNumber := "", panNumber := ""
  , firstName := some "A", lastName := some "B"
  , grossPayCents := 150, metaPfCents := some 150, metaTdsCents := none }

/-- Database with the single 150-cent-PF employee. -/
def dbPF150 : DB :=
  { runs := [exRun], org := some exOrg, preRows := [row150] }

/-- An organization whose PF establishment code is blank. -/
def orgBlankPF : Org :=
  { name := "Acme", pf_code := "", company_pan := "", company_tan := ""
  , esi_code := "" }

/-- Tenant with an existing organization, blank PF code, and no payroll
runs at all. -/
def dbBlankNoRuns : DB :=
  { runs := [], org := some orgBlankPF, preRows := [] }

/-- Tenant with a completed run but a blank PF establishment code. -/
def dbBlankWithRun : DB :=
  { runs := [exRun], org := some orgBlankPF, preRows := [exEmployee] }

/-- A draft payroll run paid in month `m` of 2025. -/
def draftRun (m : Nat) : PayrollRun :=
  { id := m, payPeriodStart := ⟨2025, m, 1⟩, payPeriodEnd := ⟨2025, m, 28⟩
  , payDate := ⟨2025, m, 28⟩, status := "draft" }

/-- A completed run of December 2024, older than all the draft runs. -/
def oldCompletedRun : PayrollRun :=
  { id := 100, payPeriodStart := ⟨2024, 12, 1⟩, payPeriodEnd := ⟨2024, 12, 31⟩
  , payDate := ⟨2024, 12, 31⟩, status := "completed" }

/-- Eleven runs spanning eleven distinct `(month, year, status)` groups:
ten 2025 draft runs and one older completed run — one group more than the
diagnostic query's `LIMIT 10`. -/
def dbElevenRuns : DB :=
  { runs :=
      [ draftRun 1, draftRun 2, draftRun 3, draftRun 4, draftRun 5
      , draftRun 6, draftRun 7, draftRun 8, draftRun 9, draftRun 10
      , oldCompletedRun ]
  , org := some exOrg, preRows := [] }

/-- An employee exactly at the ESI wage threshold (2,100,000 cents). -/
def rowAtThreshold : PreRow :=
  { payrollRunId := 1, status := "processed", employeeId := "E1"
  , uanNumber := "", esiNumber := "ESI1", panNumber := ""
  , firstName := some "Ann", lastName := some "Att"
  , grossPayCents := 2100000, metaPfCents := none, metaTdsCents := none }

/-- An employee one cent above the ESI wage threshold. -/
def rowOverThreshold : PreRow :=
  { payrollRunId := 1, status := "processed", employeeId := "E2"
  , uanNumber := "", esiNumber := "ESI2", panNumber := ""
  , firstName := some "Bob", lastName := some "Bee"
  , grossPayCents := 2100001, metaPfCents := none, metaTdsCents := none }

/-- Database with one employee at and one above the ESI threshold. -/
def dbBoundary : DB :=
  { runs := [exRun], org := some exOrg
  , preRows := [rowAtThreshold, rowOverThreshold] }

/-- Tenant with a completed run and an organization but no employee rows. -/
def dbNoEmployees : DB :=
  { runs := [exRun], org := some exOrg, preRows := [] }

/-- An employee with 50,000 cents of TDS withheld. -/
def exTdsEmployee : PreRow :=
  { payrollRunId := 1, status := "processed", employeeId := "E2"
  , uanNumber := "", esiNumber := "", panNumber := "CCCPC3333C"
  , firstName := some "Tess", lastName := none
  , grossPayCents := 3000000, metaPfCents := none
  , metaTdsCents := some 50000 }

/-- Database with one TDS-bearing employee and one without. -/
def dbTds : DB :=
  { runs := [exRun], org := some exOrg
  , preRows := [exTdsEmployee, exEmployee] }

/-- The summary `generateTDSSummary` produces on `dbTds` for 1/2025. -/
def tdsExpected : TDSSummary :=
  { organization := { name := "Acme", pan := "AAAPA1111A", tan := "DEL12345A" }
  , period := { month := 1, year := 2025, pay_date := ⟨2025, 1, 31⟩ }
  , total_tds := 500
  , total_employees := 1
  , bySection192B :=
      { sectionCode := "192B"
      , description := "Tax Deducted at Source on Salary"
      , total_amount := 500
      , employee_count := 1
      , employees :=
          [ { employee_id := "E2", pan := "CCCPC3333C", name := "Tess"
            , gross_pay := 30000, tds_deducted := 500
            , sectionCode := "192B" } ] }
  , employees :=
      [ { employee_id := "E2", pan := "CCCPC3333C", name := "Tess"
        , gross_pay := 30000, tds_deducted := 500, sectionCode := "192B" } ] }

/-! ## Helper lemmas -/

theorem insertSorted_perm (le : α → α → Bool) (a : α) (l : List α) :
    List.Perm (insertSorted le a l) (a :: l) := by
  induction l with
  | nil => simp [insertSorted]
  | cons b bs ih =>
    simp only [insertSorted]
    by_cases h : le a b = true
    · simp [h]
    · simp only [h, if_false, Bool.false_eq_true]
      exact (ih.cons b).trans (List.Perm.swap a b bs)

theorem sortWith_perm (le : α → α → Bool) (l : List α) :
    List.Perm (sortWith le l) l := by
  induction l with
  | nil => simp [sortWith]
  | cons a as ih =>
    exact (insertSorted_perm le a (sortWith le as)).trans (ih.cons a)

theorem mem_sortWith (le : α → α → Bool) (l : List α) (x : α) :
    x ∈ sortWith le l ↔ x ∈ l :=
  (sortWith_perm le l).mem_iff

theorem jsOr_empty (a : String) : jsOr a "" = a := by
  unfold jsOr
  split <;> simp_all

theorem mk_data (s : String) : String.mk s.data = s := by
  cases s
  rfl

theorem getPayrollRunForMonth_ok {db : DB} {month year : Nat}
    {qs : List QueryTag} {run : PayrollRun}
    (h : getPayrollRunForMonth db month year = (qs, Except.ok run)) :
    qs = [QueryTag.completedRunQ] := by
  unfold getPayrollRunForMonth at h
  cases hc : completedRunsForMonth db month year with
  | nil => rw [hc] at h; exact absurd (congrArg Prod.snd h) (by simp)
  | cons r rest => rw [hc] at h; exact (congrArg Prod.fst h).symm

theorem append_ne_empty_left {a : String} (b : String) (h : a ≠ "") :
    a ++ b ≠ "" := by
  intro hab
  apply h
  have : (a ++ b).data = a.data ++ b.data := by
    cases a; cases b; rfl
  have hdata : a.data ++ b.data = ([] : List Char) := by
    rw [← this, hab]
  rcases List.append_eq_nil.mp hdata with ⟨ha, -⟩
  cases a
  simp_all

theorem slash_pair_ne_empty (m y : Nat) :
    Nat.repr m ++ "/" ++ Nat.repr y ≠ "" := by
  intro h
  have hlen := congrArg String.length h
  simp only [String.length_append] at hlen
  have h1 : ("/" : String).length = 1 := rfl
  have h2 : ("" : String).length = 0 := rfl
  omega

theorem joinSep_cons_ne_empty (sep x : String) (xs : List String)
    (hx : x ≠ "") : joinSep sep (x :: xs) ≠ "" := by
  cases xs with
  | nil => simpa [joinSep] using hx
  | cons y ys =>
    simp only [joinSep]
    exact append_ne_empty_left _ (append_ne_empty_left _ hx)

theorem doubleQuotes_eq_nil_iff (l : List Char) :
    doubleQuotes l = [] ↔ l = [] := by
  cases l with
  | nil => simp [doubleQuotes]
  | cons c cs =>
    simp only [doubleQuotes]
    split <;> simp

theorem undouble_doubleQuotes (l : List Char) : undouble (doubleQuotes l) = l := by
  induction l with
  | nil => rfl
  | cons c cs ih =>
    by_cases hc : c = '"'
    · subst hc
      rw [doubleQuotes, if_pos rfl, undouble, if_pos ⟨rfl, rfl⟩, ih]
    · rw [doubleQuotes, if_neg hc]
      cases hdq : doubleQuotes cs with
      | nil =>
        rw [(doubleQuotes_eq_nil_iff cs).mp hdq]
        rw [undouble]
      | cons d ds =>
        rw [undouble, if_neg (by tauto), ← hdq, ih]

theorem hasSpecial_iff (s : String) :
    hasSpecial s = true ↔ (',' ∈ s.data ∨ '"' ∈ s.data ∨ '\n' ∈ s.data) := by
  simp only [hasSpecial, List.any_eq_true, Bool.or_eq_true, beq_iff_eq,
    or_assoc]
  constructor
  · rintro ⟨c, hc, (rfl | rfl | rfl)⟩
    exacts [Or.inl hc, Or.inr (Or.inl hc), Or.inr (Or.inr hc)]
  · rintro (h | h | h)
    exacts [⟨_, h, Or.inl rfl⟩, ⟨_, h, Or.inr (Or.inl rfl)⟩,
      ⟨_, h, Or.inr (Or.inr rfl)⟩]

theorem escapeCSV_daysInMonth (year month : Nat) :
    escapeCSV (Nat.repr (daysInMonth year month)) =
      Nat.repr (daysInMonth year month) := by
  unfold daysInMonth
  split
  · split <;> decide
  · split <;> decide

theorem daysInMonth_bounds (year month : Nat) :
    28 ≤ daysInMonth year month ∧ daysInMonth year month ≤ 31 := by
  unfold daysInMonth
  split
  · split <;> omega
  · split <;> omega

theorem tds_foldl_invariant (rows : List PreRow) :
    ∀ s0 : TDSSummary,
      s0.total_tds = s0.bySection192B.total_amount →
      s0.bySection192B.total_amount =
        (s0.employees.map (fun er => er.tds_deducted)).sum →
      s0.bySection192B.employee_count = s0.employees.length →
      s0.bySection192B.employees = s0.employees →
      s0.employees.all (fun er => er.sectionCode == "192B") = true →
      (rows.foldl tdsStep s0).total_tds =
          (rows.foldl tdsStep s0).bySection192B.total_amount ∧
        (rows.foldl tdsStep s0).bySection192B.total_amount =
          ((rows.foldl tdsStep s0).employees.map
            (fun er => er.tds_deducted)).sum ∧
        (rows.foldl tdsStep s0).bySection192B.employee_count =
          (rows.foldl tdsStep s0).employees.length ∧
        (rows.foldl tdsStep s0).bySection192B.employees =
          (rows.foldl tdsStep s0).employees ∧
        (rows.foldl tdsStep s0).employees.all
          (fun er => er.sectionCode == "192B") = true ∧
        (rows.foldl tdsStep s0).total_employees = s0.total_employees ∧
        (rows.foldl tdsStep s0).employees.length =
          s0.employees.length + rows.length := by
  induction rows with
  | nil =>
    intro s0 h1 h2 h3 h4 h5
    exact ⟨h1, h2, h3, h4, h5, rfl, by simp⟩
  | cons r rest ih =>
    intro s0 h1 h2 h3 h4 h5
    simp only [List.foldl_cons]
    have step1 : (tdsStep s0 r).total_tds =
        (tdsStep s0 r).bySection192B.total_amount := by
      simp [tdsStep, h1]
    have step2 : (tdsStep s0 r).bySection192B.total_amount =
        ((tdsStep s0 r).employees.map (fun er => er.tds_deducted)).sum := by
      simp [tdsStep, h2, tdsEmployeeRecord]
    have step3 : (tdsStep s0 r).bySection192B.employee_count =
        (tdsStep s0 r).employees.length := by
      simp [tdsStep, h3]
    have step4 : (tdsStep s0 r).bySection192B.employees =
        (tdsStep s0 r).employees := by
      simp [tdsStep, h4]
    have step5 : (tdsStep s0 r).employees.all
        (fun er => er.sectionCode == "192B") = true := by
      simp [tdsStep, h5, tdsEmployeeRecord]
    obtain ⟨g1, g2, g3, g4, g5, g6, g7⟩ :=
      ih (tdsStep s0 r) step1 step2 step3 step4 step5
    refine ⟨g1, g2, g3, g4, g5, ?_, ?_⟩
    · rw [g6]; rfl
    · rw [g7]; simp [tdsStep]; omega

theorem unescapeCSV_wrap (l : List Char) :
    unescapeCSV (String.mk ('"' :: (doubleQuotes l ++ ['"']))) = String.mk l := by
  have hcond : 2 ≤ (String.mk ('"' :: (doubleQuotes l ++ ['"']))).data.length
      ∧ (String.mk ('"' :: (doubleQuotes l ++ ['"']))).data.head? = some '"'
      ∧ (String.mk ('"' :: (doubleQuotes l ++ ['"']))).data.getLast?
          = some '"' := by
    refine ⟨?_, rfl, ?_⟩
    · show 2 ≤ ('"' :: (doubleQuotes l ++ ['"'])).length
      simp [List.length_append]
    · show ('"' :: (doubleQuotes l ++ ['"'])).getLast? = some '"'
      rw [← List.cons_append]
      exact List.getLast?_concat _
  unfold unescapeCSV
  rw [if_pos hcond]
  show String.mk
      (undouble ((('"' :: (doubleQuotes l ++ ['"'])).drop 1).dropLast))
    = String.mk l
  have h1 : ('"' :: (doubleQuotes l ++ ['"'])).drop 1
      = doubleQuotes l ++ ['"'] := rfl
  rw [h1, List.dropLast_concat, undouble_doubleQuotes]

/-- Claim C6. The ESI CSV escaping function wraps a field in double quotes
with internal double quotes doubled exactly when the field contains a
comma, a double quote, or a newline, and leaves it unchanged otherwise;
escaping followed by an RFC4180-style unescape returns the original string
for every string (round-trip, no data loss). -/
theorem escapeCSV_exact_and_roundtrip (s : String) :
    escapeCSV s =
      (if ',' ∈ s.data ∨ '"' ∈ s.data ∨ '\n' ∈ s.data
        then String.mk ('"' :: (doubleQuotes s.data ++ ['"'])) else s)
    ∧ unescapeCSV (escapeCSV s) = s := by
  have hiff := hasSpecial_iff s
  by_cases hs : hasSpecial s = true
  · constructor
    · rw [escapeCSV, if_pos hs, if_pos (hiff.mp hs)]
    · rw [escapeCSV, if_pos hs, unescapeCSV_wrap, mk_data]
  · have hmem := fun hp => hs (hiff.mpr hp)
    constructor
    · rw [escapeCSV, if_neg hs, if_neg hmem]
    · rw [escapeCSV, if_neg hs]
      unfold unescapeCSV
      rw [if_neg ?hcond]
      case hcond =>
        rintro ⟨-, hh, -⟩
        exact hmem (Or.inr (Or.inl (List.mem_of_mem_head? hh)))

/-- Claim C5. In the ESI report a processed employee of the run is included
iff `gross_pay_cents ≤ 2,100,000`; on the boundary fixture the employee at
exactly 2,100,000 cents appears in the output and the one at 2,100,001
does not. -/
theorem esi_eligibility_boundary :
    (∀ (db : DB) (runId : Nat) (r : PreRow),
      r ∈ esiEmployeeRows db runId ↔
        (r ∈ db.preRows ∧ r.payrollRunId = runId ∧ r.status = "processed"
          ∧ r.grossPayCents ≤ 2100000))
    ∧ (generateESIReturn dbBoundary 1 2025).2 =
        Except.ok "IP Number,IP Name,Days Worked,Wages\nESI1,Ann Att,31,21000" := by
  constructor
  · intro db runId r
    unfold esiEmployeeRows
    rw [mem_sortWith, List.mem_filter]
    simp [and_assoc]
  · decide

/-- Claim C10. With the organization present, the ESI output is identical for
any two values of its `esi_code` (the fetched code never influences the
result), and the IP Number field of each record is built only from the
employee's own `esi_number`, falling back to `employee_id`, falling back
to the empty string. -/
theorem esi_code_noninterference :
    (∀ (runs : List PayrollRun) (preRows : List PreRow) (o : Org)
        (c1 c2 : String) (month year : Nat),
      generateESIReturn ⟨runs, some { o with esi_code := c1 }, preRows⟩
          month year
        = generateESIReturn ⟨runs, some { o with esi_code := c2 }, preRows⟩
          month year)
    ∧ (∀ (days : Nat) (r : PreRow),
      esiRecord days r = joinSep ","
        [ escapeCSV (jsOr r.esiNumber (jsOr r.employeeId ""))
        , escapeCSV (jsTrim (jsOr (employeeName r) ""))
        , escapeCSV (Nat.repr days)
        , escapeCSV (toString (centsToRupees r.grossPayCents)) ]) := by
  constructor
  · intro runs preRows o c1 c2 month year
    rfl
  · intro days r
    rfl

/-- Claim C2. For every run with at least one processed employee, the PF
report header line is exactly
`establishment_code|MM|YYYY|employee_count|total_PF|total_EPS|total_EDLI`
with the month zero-padded to two digits, where the EPS total is
`round(0.8333 × ΣPF_cents)` and the EDLI total `round(0.0005 × ΣPF_cents)`
over the minor-unit PF sum (aggregate-then-derive), each then converted to
whole currency units. -/
theorem pf_header_aggregate (db : DB) (month year : Nat) (qs : List QueryTag)
    (run : PayrollRun) (org : Org)
    (hrun : getPayrollRunForMonth db month year = (qs, Except.ok run))
    (horg : db.org = some org) (hcode : org.pf_code ≠ "")
    (hrows : pfEmployeeRows db run.id ≠ []) :
    (generatePFECR db month year).2 =
      Except.ok (joinSep "\n"
        (joinSep "|"
          [ org.pf_code
          , pad2 month
          , Nat.repr year
          , Nat.repr (pfEmployeeRows db run.id).length
          , toString (centsToRupees
              ((pfEmployeeRows db run.id).map pfContributionCents).sum)
          , toString (centsToRupees (roundHalfUp
              (((pfEmployeeRows db run.id).map pfContributionCents).sum * 8333)
              10000))
          , toString (centsToRupees (roundHalfUp
              (((pfEmployeeRows db run.id).map pfContributionCents).sum * 5)
              10000)) ]
          :: (pfEmployeeRows db run.id).map pfEmployeeRecord)) := by
  have hne : (pfEmployeeRows db run.id).isEmpty = false := by
    cases h : pfEmployeeRows db run.id with
    | nil => exact absurd h hrows
    | cons a l => rfl
  simp only [generatePFECR, hrun, horg, hne]
  rw [if_neg hcode]
  simp [pfHeader, jsOr_empty]

/-- Witness for `pf_header_aggregate` at the spec's example database. -/
theorem pf_header_aggregate_witness :
    (generatePFECR exampleDb 1 2025).2 =
      Except.ok (joinSep "\n"
        (joinSep "|"
          [ exOrg.pf_code
          , pad2 1
          , Nat.repr 2025
          , Nat.repr (pfEmployeeRows exampleDb exRun.id).length
          , toString (centsToRupees
              ((pfEmployeeRows exampleDb exRun.id).map pfContributionCents).sum)
          , toString (centsToRupees (roundHalfUp
              (((pfEmployeeRows exampleDb exRun.id).map
                pfContributionCents).sum * 8333) 10000))
          , toString (centsToRupees (roundHalfUp
              (((pfEmployeeRows exampleDb exRun.id).map
                pfContributionCents).sum * 5) 10000)) ]
          :: (pfEmployeeRows exampleDb exRun.id).map pfEmployeeRecord)) :=
  pf_header_aggregate exampleDb 1 2025 [QueryTag.completedRunQ] exRun exOrg
    (by decide) rfl (by decide) (by decide)

/-- Claim C1, counterexample. The claim derives per-employee EPS/EDLI from
the PF contribution in minor units with conversion only at serialization;
the source converts to whole currency units first.  For a PF contribution
of 150 cents the output EPS field is `2`, while the claimed pipeline
`round(round(150 × 0.8333) / 100)` yields `1`. -/
theorem pf_per_employee_spec_counterexample :
    (generatePFECR dbPF150 1 2025).2 =
      Except.ok "PF001|01|2025|1|2|1|0\nU1|A B|2|2|2|2|2|0"
    ∧ pfEmployeeRecord row150 =
        joinSep "|" ["U1", "A B", "2", "2", "2", "2", "2", "0"]
    ∧ specPerEmployeeEPS (pfContributionCents row150) = 1
    ∧ ("2" : String) ≠ toString (specPerEmployeeEPS (pfContributionCents row150)) := by
  exact ⟨by decide, by decide, by decide, by decide⟩

/-- Claim C1, amended. In the PF report, for every processed employee the
EPS contribution equals `round(round(PF_cents/100) × 0.8333)` and the EDLI
contribution `round(round(PF_cents/100) × 0.0005)`: the PF contribution is
converted to whole currency units first and the statutory rates applied to
that converted amount (all other monetary fields are converted at
serialization); the spec's example row still serializes to EPF/EPS wage
base 15000, EPS 2000 and EDLI 1. -/
theorem pf_per_employee_derivation (db : DB) (month year : Nat)
    (qs : List QueryTag) (run : PayrollRun) (org : Org) (r : PreRow)
    (hrun : getPayrollRunForMonth db month year = (qs, Except.ok run))
    (horg : db.org = some org) (hcode : org.pf_code ≠ "")
    (hr : r ∈ pfEmployeeRows db run.id) :
    (generatePFECR db month year).2 =
      Except.ok (joinSep "\n"
        (pfHeader org month year (pfEmployeeRows db run.id)
          :: (pfEmployeeRows db run.id).map pfEmployeeRecord))
    ∧ pfEmployeeRecord r = joinSep "|"
        [ jsOr r.uanNumber ""
        , jsToUpper (jsTrim (jsOr (employeeName r) ""))
        , toString (centsToRupees r.grossPayCents)
        , toString (centsToRupees (min r.grossPayCents 1500000))
        , toString (centsToRupees (min r.grossPayCents 1500000))
        , toString (centsToRupees (pfContributionCents r))
        , toString (roundHalfUp
            (centsToRupees (pfContributionCents r) * 8333) 10000)
        , toString (roundHalfUp
            (centsToRupees (pfContributionCents r) * 5) 10000) ] := by
  have hrows : pfEmployeeRows db run.id ≠ [] := List.ne_nil_of_mem hr
  have hne : (pfEmployeeRows db run.id).isEmpty = false := by
    cases h : pfEmployeeRows db run.id with
    | nil => exact absurd h hrows
    | cons a l => rfl
  constructor
  · simp only [generatePFECR, hrun, horg, hne]
    rw [if_neg hcode]
    simp
  · rfl

/-- Witness for `pf_per_employee_derivation` at the spec's example row
(gross 2,000,000 cents, PF 240,000 cents). -/
theorem pf_per_employee_derivation_witness :
    (generatePFECR exampleDb 1 2025).2 =
      Except.ok (joinSep "\n"
        (pfHeader exOrg 1 2025 (pfEmployeeRows exampleDb exRun.id)
          :: (pfEmployeeRows exampleDb exRun.id).map pfEmployeeRecord))
    ∧ pfEmployeeRecord exEmployee = joinSep "|"
        [ jsOr exEmployee.uanNumber ""
        , jsToUpper (jsTrim (jsOr (employeeName exEmployee) ""))
        , toString (centsToRupees exEmployee.grossPayCents)
        , toString (centsToRupees (min exEmployee.grossPayCents 1500000))
        , toString (centsToRupees (min exEmployee.grossPayCents 1500000))
        , toString (centsToRupees (pfContributionCents exEmployee))
        , toString (roundHalfUp
            (centsToRupees (pfContributionCents exEmployee) * 8333) 10000)
        , toString (roundHalfUp
            (centsToRupees (pfContributionCents exEmployee) * 5) 10000) ] :=
  pf_per_employee_derivation exampleDb 1 2025 [QueryTag.completedRunQ]
    exRun exOrg exEmployee (by decide) rfl (by decide) (by decide)

/-- Claim C3, counterexample. A tenant whose organization exists with a
blank PF establishment code but which has no completed payroll run: PF
generation fails with the `NotFound`-class lookup diagnostic, not with an
`InvalidConfig`-class error as the claim states. -/
theorem pf_blank_code_counterexample :
    dbBlankNoRuns.org = some orgBlankPF
    ∧ orgBlankPF.pf_code = ""
    ∧ generatePFECR dbBlankNoRuns 1 2025 =
        ([QueryTag.completedRunQ, QueryTag.anyRunsQ], Except.error
          "No completed payroll run found for 1/2025. No payroll runs found for this organization. Please create and process a payroll run first.")
    ∧ ¬ isInvalidConfigError
        "No completed payroll run found for 1/2025. No payroll runs found for this organization. Please create and process a payroll run first." := by
  exact ⟨rfl, rfl, by decide, by unfold isInvalidConfigError; decide⟩

/-- Claim C3, amended. Provided the payroll-run lookup succeeds, a tenant
whose organization record exists with a blank PF establishment code makes
`generatePFECR` fail with the `InvalidConfig`-class error
`PF Code not configured for organization` before the employee query is
executed (the model performs no writes, so all state is unchanged). -/
theorem pf_blank_code_invalid_config (db : DB) (month year : Nat)
    (qs : List QueryTag) (run : PayrollRun) (org : Org)
    (hrun : getPayrollRunForMonth db month year = (qs, Except.ok run))
    (horg : db.org = some org) (hcode : org.pf_code = "") :
    generatePFECR db month year =
      ([QueryTag.completedRunQ, QueryTag.orgQ],
        Except.error "PF Code not configured for organization")
    ∧ isInvalidConfigError "PF Code not configured for organization"
    ∧ QueryTag.employeesQ ∉ [QueryTag.completedRunQ, QueryTag.orgQ] := by
  have hqs := getPayrollRunForMonth_ok hrun
  subst hqs
  refine ⟨?_, Or.inr rfl, by decide⟩
  simp [generatePFECR, hrun, horg, hcode]

/-- Witness for `pf_blank_code_invalid_config`: completed run present,
organization present, blank PF code. -/
theorem pf_blank_code_invalid_config_witness :
    generatePFECR dbBlankWithRun 1 2025 =
      ([QueryTag.completedRunQ, QueryTag.orgQ],
        Except.error "PF Code not configured for organization")
    ∧ isInvalidConfigError "PF Code not configured for organization"
    ∧ QueryTag.employeesQ ∉ [QueryTag.completedRunQ, QueryTag.orgQ] :=
  pf_blank_code_invalid_config dbBlankWithRun 1 2025
    [QueryTag.completedRunQ] exRun orgBlankPF (by decide) rfl rfl

set_option maxRecDepth 8000

/-- Claim C4, counterexample. Eleven distinct run groups: the diagnostic
query's `LIMIT 10` cuts off the only completed run (12/2024), so although
a completed run exists for another period, the lookup error selects branch
(b) — listing the draft runs with status and instructing completion —
instead of branch (a). -/
theorem lookup_branch_counterexample :
    oldCompletedRun ∈ dbElevenRuns.runs
    ∧ oldCompletedRun.status = "completed"
    ∧ completedRunsForMonth dbElevenRuns 11 2025 = []
    ∧ (∀ g ∈ runGroups dbElevenRuns, g.status ≠ "completed")
    ∧ getPayrollRunForMonth dbElevenRuns 11 2025 =
        ([QueryTag.completedRunQ, QueryTag.anyRunsQ], Except.error
          "No completed payroll run found for 11/2025. Available payroll runs: 10/2025 (draft), 9/2025 (draft), 8/2025 (draft), 7/2025 (draft), 6/2025 (draft), 5/2025 (draft), 4/2025 (draft), 3/2025 (draft), 2/2025 (draft), 1/2025 (draft). Please complete a payroll run first.") := by
  exact ⟨by decide, rfl, by decide, by decide, by decide⟩

/-- Claim C4, amended. When no completed payroll run matches the requested
month/year the lookup fails — its only failure path — with the diagnostic
message, which selects exactly one of three branches evaluated over the at
most ten most recent distinct `(month, year, status)` groups returned by
the `LIMIT 10` diagnostic query (not over all runs of the tenant):
(a) completed runs among those groups are listed as `month/year` pairs;
(b) otherwise, if any groups exist, each is listed as
`month/year (status)` with an instruction to complete processing;
(c) otherwise no runs exist and creating one is instructed. -/
theorem lookup_diagnostic_branches (db : DB) (month year : Nat) :
    (getPayrollRunForMonth db month year =
      (if completedRunsForMonth db month year = []
        then ([QueryTag.completedRunQ, QueryTag.anyRunsQ],
          Except.error (noRunDiagnostic db month year))
        else ([QueryTag.completedRunQ],
          Except.ok ((completedRunsForMonth db month year).headI))))
    ∧ noRunDiagnostic db month year =
      (if runGroups db = [] then
        "No completed payroll run found for " ++ Nat.repr month ++ "/"
          ++ Nat.repr year ++ "."
          ++ " No payroll runs found for this organization. Please create and process a payroll run first."
      else if (runGroups db).filter (fun g => g.status == "completed") ≠ []
      then
        "No completed payroll run found for " ++ Nat.repr month ++ "/"
          ++ Nat.repr year ++ "." ++ " Available completed payroll runs: "
          ++ joinSep ", "
            (((runGroups db).filter (fun g => g.status == "completed")).map
              (fun g => Nat.repr g.month ++ "/" ++ Nat.repr g.year))
          ++ "."
      else
        "No completed payroll run found for " ++ Nat.repr month ++ "/"
          ++ Nat.repr year ++ "." ++ " Available payroll runs: "
          ++ joinSep ", " ((runGroups db).map (fun g =>
              Nat.repr g.month ++ "/" ++ Nat.repr g.year
                ++ " (" ++ g.status ++ ")"))
          ++ ". Please complete a payroll run first.") := by
  constructor
  · cases hc : completedRunsForMonth db month year with
    | nil => simp [getPayrollRunForMonth, hc]
    | cons run rest => simp [getPayrollRunForMonth, hc]
  · by_cases hg : runGroups db = []
    · have hie : (runGroups db).isEmpty = true := by rw [hg]; rfl
      rw [if_pos hg]
      unfold noRunDiagnostic
      rw [if_pos hie]
    · have hie : (runGroups db).isEmpty = false := by
        cases hgg : runGroups db with
        | nil => exact absurd hgg hg
        | cons a l => rfl
      rw [if_neg hg]
      unfold noRunDiagnostic
      rw [if_neg (by rw [hie]; exact Bool.false_ne_true)]
      by_cases hf :
          (runGroups db).filter (fun g => g.status == "completed") ≠ []
      · have hav : joinSep ", " (((runGroups db).filter
            (fun g => g.status == "completed")).map
            (fun g => Nat.repr g.month ++ "/" ++ Nat.repr g.year)) ≠ "" := by
          cases hff : (runGroups db).filter (fun g => g.status == "completed")
            with
          | nil => exact absurd hff hf
          | cons g gs =>
            simp only [List.map_cons]
            exact joinSep_cons_ne_empty _ _ _ (slash_pair_ne_empty _ _)
        rw [if_pos hf, if_pos hav]
      · have hff : (runGroups db).filter (fun g => g.status == "completed")
            = [] := by
          by_contra hcon
          exact hf hcon
        rw [if_neg hf, hff]
        simp only [List.map_nil]
        rw [if_neg (by simp [joinSep])]

/-- Claim C7. When no processed employee of the run has a positive
`tds_cents` (the run may well have processed employees — their TDS is
merely zero or absent), `generateTDSSummary` succeeds with `total_tds = 0`,
`total_employees = 0`, an empty employee list and a `192B` section with
zero amount and count — unlike the PF and ESI builders, which fail with
their `EmptyResult` errors on zero eligible employees, as the
no-eligible-employee fixture shows. -/
theorem tds_zero_rows_success (db : DB) (month year : Nat)
    (qs : List QueryTag) (run : PayrollRun) (org : Org)
    (hrun : getPayrollRunForMonth db month year = (qs, Except.ok run))
    (horg : db.org = some org)
    (hzero : tdsEmployeeRows db run.id = []) :
    (generateTDSSummary db month year).2 =
      Except.ok
        { organization :=
            { name := jsOr org.name ""
            , pan := jsOr org.company_pan ""
            , tan := jsOr org.company_tan "" }
        , period := { month := month, year := year, pay_date := run.payDate }
        , total_tds := 0
        , total_employees := 0
        , bySection192B :=
            { sectionCode := "192B"
            , description := "Tax Deducted at Source on Salary"
            , total_amount := 0
            , employee_count := 0
            , employees := [] }
        , employees := [] }
    ∧ (generatePFECR dbNoEmployees 1 2025).2 =
        Except.error "No employees found in payroll run"
    ∧ (generateESIReturn dbNoEmployees 1 2025).2 =
        Except.error "No employees eligible for ESI in this payroll run" := by
  refine ⟨?_, by decide, by decide⟩
  simp only [generateTDSSummary, hrun, horg, hzero]
  rfl

/-- Witness for `tds_zero_rows_success` at the example database, whose one
processed employee has no `tds_cents` in metadata. -/
theorem tds_zero_rows_success_witness :
    (generateTDSSummary exampleDb 1 2025).2 =
      Except.ok
        { organization :=
            { name := jsOr exOrg.name ""
            , pan := jsOr exOrg.company_pan ""
            , tan := jsOr exOrg.company_tan "" }
        , period := { month := 1, year := 2025, pay_date := exRun.payDate }
        , total_tds := 0
        , total_employees := 0
        , bySection192B :=
            { sectionCode := "192B"
            , description := "Tax Deducted at Source on Salary"
            , total_amount := 0
            , employee_count := 0
            , employees := [] }
        , employees := [] }
    ∧ (generatePFECR dbNoEmployees 1 2025).2 =
        Except.error "No employees found in payroll run"
    ∧ (generateESIReturn dbNoEmployees 1 2025).2 =
        Except.error "No employees eligible for ESI in this payroll run" :=
  tds_zero_rows_success exampleDb 1 2025 [QueryTag.completedRunQ]
    exRun exOrg (by decide) rfl (by decide)

/-- Claim C8. The Days Worked field of every ESI record equals the calendar
day count of the requested month/year — always between 28 and 31, with
February resolved by the leap-year rule — regardless of the employee's
actual attendance. -/
theorem esi_days_worked (db : DB) (month year : Nat) (qs : List QueryTag)
    (run : PayrollRun) (org : Org) (r : PreRow)
    (_hm1 : 1 ≤ month) (_hm2 : month ≤ 12)
    (hrun : getPayrollRunForMonth db month year = (qs, Except.ok run))
    (horg : db.org = some org)
    (hr : r ∈ esiEmployeeRows db run.id) :
    (generateESIReturn db month year).2 =
      Except.ok (joinSep "\n" ("IP Number,IP Name,Days Worked,Wages" ::
        (esiEmployeeRows db run.id).map (esiRecord (daysInMonth year month))))
    ∧ esiRecord (daysInMonth year month) r = joinSep ","
        [ escapeCSV (jsOr r.esiNumber (jsOr r.employeeId ""))
        , escapeCSV (jsTrim (jsOr (employeeName r) ""))
        , Nat.repr (daysInMonth year month)
        , escapeCSV (toString (centsToRupees r.grossPayCents)) ]
    ∧ 28 ≤ daysInMonth year month ∧ daysInMonth year month ≤ 31
    ∧ daysInMonth year 2 = (if isLeapYear year then 29 else 28) := by
  have hrows : esiEmployeeRows db run.id ≠ [] := List.ne_nil_of_mem hr
  have hne : (esiEmployeeRows db run.id).isEmpty = false := by
    cases h : esiEmployeeRows db run.id with
    | nil => exact absurd h hrows
    | cons a l => rfl
  refine ⟨?_, ?_, (daysInMonth_bounds year month).1,
    (daysInMonth_bounds year month).2, rfl⟩
  · simp only [generateESIReturn, hrun, horg, hne]
    simp
  · unfold esiRecord
    rw [escapeCSV_daysInMonth]

/-- Witness for `esi_days_worked` at the example database (January 2025,
31 days). -/
theorem esi_days_worked_witness :
    (generateESIReturn exampleDb 1 2025).2 =
      Except.ok (joinSep "\n" ("IP Number,IP Name,Days Worked,Wages" ::
        (esiEmployeeRows exampleDb exRun.id).map
          (esiRecord (daysInMonth 2025 1))))
    ∧ esiRecord (daysInMonth 2025 1) exEmployee = joinSep ","
        [ escapeCSV (jsOr exEmployee.esiNumber (jsOr exEmployee.employeeId ""))
        , escapeCSV (jsTrim (jsOr (employeeName exEmployee) ""))
        , Nat.repr (daysInMonth 2025 1)
        , escapeCSV (toString (centsToRupees exEmployee.grossPayCents)) ]
    ∧ 28 ≤ daysInMonth 2025 1 ∧ daysInMonth 2025 1 ≤ 31
    ∧ daysInMonth 2025 2 = (if isLeapYear 2025 then 29 else 28) :=
  esi_days_worked exampleDb 1 2025 [QueryTag.completedRunQ] exRun exOrg
    exEmployee (by decide) (by decide) (by decide) rfl (by decide)

/-- Claim C9. Every summary returned by `generateTDSSummary` is internally
consistent: `total_tds` equals the `192B` section total, which equals the
sum of `tds_deducted` over the employee list; `total_employees` equals the
section count, which equals the list length; the section's employee list
is the top-level list; and every record's section is `192B`. -/
theorem tds_summary_consistent (db : DB) (month year : Nat)
    (qs : List QueryTag) (s : TDSSummary)
    (h : generateTDSSummary db month year = (qs, Except.ok s)) :
    s.total_tds = s.bySection192B.total_amount
    ∧ s.bySection192B.total_amount =
        (s.employees.map (fun er => er.tds_deducted)).sum
    ∧ s.total_employees = s.bySection192B.employee_count
    ∧ s.bySection192B.employee_count = s.employees.length
    ∧ s.bySection192B.employees = s.employees
    ∧ s.employees.all (fun er => er.sectionCode == "192B") = true := by
  unfold generateTDSSummary at h
  cases hlook : getPayrollRunForMonth db month year with
  | mk qs0 res =>
    rw [hlook] at h
    cases res with
    | error e => simp at h
    | ok run =>
      cases horg : db.org with
      | none => rw [horg] at h; simp at h
      | some org =>
        rw [horg] at h
        have hs : s = (tdsEmployeeRows db run.id).foldl tdsStep
            (tdsInit org month year run (tdsEmployeeRows db run.id)) := by
          have h2 := congrArg Prod.snd h
          simp only [Prod.snd] at h2
          exact (Except.ok.injEq _ _ ▸ h2 : _).symm
        subst hs
        obtain ⟨g1, g2, g3, g4, g5, g6, g7⟩ :=
          tds_foldl_invariant (tdsEmployeeRows db run.id)
            (tdsInit org month year run (tdsEmployeeRows db run.id))
            rfl rfl rfl rfl rfl
        refine ⟨g1, g2, ?_, g3, g4, g5⟩
        rw [g6, g3, g7]
        simp [tdsInit]

/-- Witness for `tds_summary_consistent` on a database with one
TDS-bearing employee. -/
theorem tds_summary_consistent_witness :
    tdsExpected.total_tds = tdsExpected.bySection192B.total_amount
    ∧ tdsExpected.bySection192B.total_amount =
        (tdsExpected.employees.map (fun er => er.tds_deducted)).sum
    ∧ tdsExpected.total_employees = tdsExpected.bySection192B.employee_count
    ∧ tdsExpected.bySection192B.employee_count =
        tdsExpected.employees.length
    ∧ tdsExpected.bySection192B.employees = tdsExpected.employees
    ∧ tdsExpected.employees.all
        (fun er => er.sectionCode == "192B") = true :=
  tds_summary_consistent dbTds 1 2025
    [QueryTag.completedRunQ, QueryTag.orgQ, QueryTag.employeesQ]
    tdsExpected (by decide)

end StatutoryReports
